import Mathlib

/-!
Verification of the GraphQL resolver layer of the `graphql-yoga-server`
repository (a Hacker News clone backend).

The resolvers in `src/schema.ts` are pure request/response transforms over a
relational store (Prisma).  We embed them shallowly:

* the store is a `Store` value (rows of `Link` and `Comment` plus the
  autoincrement counters), and the Prisma CRUD primitives the resolvers call
  become pure functions over `Store`;
* a resolver that can reject becomes a function into
  `Except ResolverError α`; mutations additionally return the store that
  results from the call, so "no row was created" is an equation on stores;
* the store's `delete` / `update` / `create` calls that the source wraps in a
  `.catch` handler can fail for environmental reasons (foreign-key
  constraints); that possibility is modelled by an `Option StoreError`
  argument injected at exactly the call the source guards, so the handler's
  remapping logic can be examined on both outcomes.

Machine numbers: GraphQL `Int` arguments are embedded as `Int`; row ids are
`Nat` (Prisma autoincrement).  The JS `Number(string)` coercion the two
fetch-by-id queries apply to their argument is modelled in full
(`jsNumber`): the ECMA `ToNumber` string grammar — whitespace trimming,
signed decimal literals with fraction and exponent, `Infinity`, and the
`0x`/`0o`/`0b` radix forms — evaluated exactly and rounded to the nearest
IEEE-754 binary64, classified by whether the resulting double is an integer
(a usable id key), a non-integral number, or `NaN`; the last two make the
Prisma client itself reject the lookup.
-/

namespace GraphqlYoga

/-- A row of the `Link` model (`prisma/schema.prisma`): integer id,
description and url. `createdAt` and the optional `postedById` play no part
in any resolver and are omitted. -/
structure Link where
  id : Nat
  description : String
  url : String
deriving Repr, DecidableEq

/-- A row of the `Comment` model: integer id, body, and a nullable reference
to the owning Link. -/
structure Comment where
  id : Nat
  body : String
  linkId : Option Nat
deriving Repr, DecidableEq

/-- A row of the `User` model (only the Auth Helper touches it). -/
structure User where
  id : Nat
  name : String
  email : String
  password : String
deriving Repr, DecidableEq

/-- The relational store seen through the Prisma client: the Link and
Comment tables plus the autoincrement counters that assign fresh ids. -/
structure Store where
  links : List Link
  comments : List Comment
  nextLinkId : Nat
  nextCommentId : Nat
deriving Repr, DecidableEq

/-- An error raised by the store itself.  `known code message` embeds a
`PrismaClientKnownRequestError` with its `code` (for example `"P2003"`, a
foreign-key-constraint violation); `unknown` embeds any other thrown value. -/
inductive StoreError where
  | known (code : String) (message : String)
  | unknown (message : String)
deriving Repr, DecidableEq

/-- What a resolver can reject with: a `GraphQLError` it constructed itself,
or a store error it let propagate unchanged. -/
inductive ResolverError where
  | graphQLError (message : String)
  | storeError (err : StoreError)
deriving Repr, DecidableEq

/-- The test `err instanceof PrismaClientKnownRequestError && err.code ===
'P2003'` from the `.catch` handlers in `schema.ts`. -/
def isKnownP2003 : StoreError → Bool
  | .known code _ => code == "P2003"
  | .unknown _ => false

/-- Base-10 value of a list of digit characters (the semantics of
`parseInt(value, 10)` on a digits-only string). -/
def digitsToNat (cs : List Char) : Nat :=
  cs.foldl (fun n c => n * 10 + (c.toNat - 48)) 0

/-- `parseIntSafe` from `schema.ts`: the regex `^(\d+)$` accepts exactly the
nonempty all-decimal-digit strings, and on those `parseInt(value, 10)`
returns the base-10 value; every other string yields `null`. -/
def parseIntSafe (value : String) : Option Nat :=
  if value.toList ≠ [] ∧ value.toList.all Char.isDigit then
    some (digitsToNat value.toList)
  else
    none

/-- The message `applyTakeConstraints` throws with, transcribed from
`schema.ts` (the source misspells "valid" as "valud"). -/
def takeRangeMsg (min max value : Int) : String :=
  s!"'take' argument value '{value}' is outside the valud range of {min} to {max}"

/-- The message `applySkipConstraints` throws with. -/
def skipRangeMsg (min max value : Int) : String :=
  s!"'skip' argument value '{value}' is outside the valud range of {min} to {max}"

/-- `applyTakeConstraints` from `schema.ts`: outside `[min, max]` it throws a
`GraphQLError` naming the `take` argument, its value and the bounds; inside
it returns the value unchanged. -/
def applyTakeConstraints (min max value : Int) : Except ResolverError Int :=
  if value < min ∨ value > max then
    .error (.graphQLError (takeRangeMsg min max value))
  else
    .ok value

/-- `applySkipConstraints` from `schema.ts`: same shape for the `skip`
argument. -/
def applySkipConstraints (min max value : Int) : Except ResolverError Int :=
  if value < min ∨ value > max then
    .error (.graphQLError (skipRangeMsg min max value))
  else
    .ok value

/-- Substring containment, the semantics of Prisma's
`{ contains: needle }` string filter (case-sensitive). -/
def strContains (s needle : String) : Bool :=
  decide (needle.toList <:+: s.toList)

/-- The `where` object `linkFeed` builds: with a needle, Links whose
description **or** url contains it; without one, every Link. -/
def linkWhere (filterNeedle : Option String) (l : Link) : Bool :=
  match filterNeedle with
  | some needle => strContains l.description needle || strContains l.url needle
  | none => true

/-- `prisma.link.findMany({ where, take, skip })`: filter, skip the first
`skip` rows, return the next `take` rows.  A negative `take`/`skip` never
reaches this call in the source (the constraints run first); `Int.toNat`
truncates them to 0 here. -/
def linkFindMany (store : Store) (cond : Link → Bool) (take skip : Int) :
    List Link :=
  ((store.links.filter cond).drop skip.toNat).take take.toNat

/-- `prisma.link.findUnique({ where: { id } })`: the Link with that id, if
any.  The key is an `Option Nat` because the resolvers build it with the JS
`Number(...)` coercion, which can produce a non-id value (`none` here). -/
def linkFindUnique (store : Store) (id : Option Nat) : Option Link :=
  match id with
  | some n => store.links.find? (fun l => l.id == n)
  | none => none

/-- `prisma.comment.findUnique({ where: { id } })`. -/
def commentFindUnique (store : Store) (id : Option Nat) : Option Comment :=
  match id with
  | some n => store.comments.find? (fun c => c.id == n)
  | none => none

/-- `prisma.link.create({ data: { description, url } })`: a fresh id from the
autoincrement counter, the new row appended. -/
def linkCreate (store : Store) (description url : String) : Link × Store :=
  let newLink : Link := ⟨store.nextLinkId, description, url⟩
  (newLink,
    { store with
        links := store.links ++ [newLink]
        nextLinkId := store.nextLinkId + 1 })

/-- `prisma.comment.create({ data: { body, linkId } })`. -/
def commentCreate (store : Store) (body : String) (linkId : Nat) :
    Comment × Store :=
  let newComment : Comment := ⟨store.nextCommentId, body, some linkId⟩
  (newComment,
    { store with
        comments := store.comments ++ [newComment]
        nextCommentId := store.nextCommentId + 1 })

/-- `prisma.link.delete({ where: { id } })` on success: the row goes away,
and per `prisma/schema.prisma` (`onDelete: Cascade`) so do the Comments that
reference it. -/
def linkDeleteRow (store : Store) (n : Nat) : Store :=
  { store with
      links := store.links.filter (fun l => l.id != n)
      comments := store.comments.filter (fun c => c.linkId != some n) }

/-- `prisma.comment.delete({ where: { id } })` on success. -/
def commentDeleteRow (store : Store) (n : Nat) : Store :=
  { store with comments := store.comments.filter (fun c => c.id != n) }

/-- `prisma.comment.update({ where: { id }, data: { body } })` on success. -/
def commentUpdateRow (store : Store) (n : Nat) (body : String) : Store :=
  { store with
      comments := store.comments.map
        (fun c => if c.id == n then { c with body } else c) }

/-- The arguments of the `linkFeed` query: all three optional on the wire. -/
structure LinkFeedArgs where
  filterNeedle : Option String
  take : Option Int
  skip : Option Int
deriving Repr, DecidableEq

/-- The `Query.linkFeed` resolver: builds the `where` filter from
`filterNeedle`, validates `take` (default 30) against `[1, 50]` and `skip`
(default 0) against `[0, 50]`, and hands the validated values to
`findMany`. -/
def linkFeed (store : Store) (args : LinkFeedArgs) :
    Except ResolverError (List Link) := do
  let take ← applyTakeConstraints 1 50 (args.take.getD 30)
  let skip ← applySkipConstraints 0 50 (args.skip.getD 0)
  .ok (linkFindMany store (linkWhere args.filterNeedle) take skip)

/-- The ECMA-262 `StrWhiteSpaceChar` set that `ToNumber` trims from a
string: WhiteSpace (TAB, VT, FF, SP, NBSP, ZWNBSP and the Zs category) and
LineTerminator (LF, CR, LS, PS). -/
def jsWhitespace (c : Char) : Bool :=
  c.toNat = 0x9 || c.toNat = 0xA || c.toNat = 0xB || c.toNat = 0xC ||
  c.toNat = 0xD || c.toNat = 0x20 || c.toNat = 0xA0 || c.toNat = 0x1680 ||
  (0x2000 ≤ c.toNat && c.toNat ≤ 0x200A) ||
  c.toNat = 0x2028 || c.toNat = 0x2029 || c.toNat = 0x202F ||
  c.toNat = 0x205F || c.toNat = 0x3000 || c.toNat = 0xFEFF

/-- Both-ends trim by a character class. -/
def jsTrim (cs : List Char) : List Char :=
  ((cs.dropWhile jsWhitespace).reverse.dropWhile jsWhitespace).reverse

/-- A JS number as the store's integer `id` key sees it: `NaN`, a double
whose value is exactly the integer `n`, or a finite-but-fractional or
infinite double. -/
inductive JsNum where
  | nan
  | int (n : Int)
  | nonInt
deriving Repr, DecidableEq

/-- Hexadecimal digit test for the `0x` literal form. -/
def isHexDigitChar (c : Char) : Bool :=
  c.isDigit || ('a' ≤ c && c ≤ 'f') || ('A' ≤ c && c ≤ 'F')

/-- Value of a hexadecimal digit. -/
def hexDigitVal (c : Char) : Nat :=
  if c.isDigit then c.toNat - 48
  else if 'a' ≤ c && c ≤ 'f' then c.toNat - 87
  else c.toNat - 55

/-- Base-`b` value of a digit list under the digit-value function `f`. -/
def baseVal (b : Nat) (f : Char → Nat) (cs : List Char) : Nat :=
  cs.foldl (fun n c => n * b + f c) 0

/-- The optional `ExponentPart` of a `StrDecimalLiteral` (`e`/`E`, optional
sign, one or more digits); the whole rest of the string must be consumed.
`none` means the literal is malformed, `some ex` the exponent value. -/
def parseExponentPart : List Char → Option Int
  | [] => some 0
  | e :: rest =>
    if e = 'e' || e = 'E' then
      match rest with
      | '+' :: ds =>
        if ds ≠ [] ∧ ds.all Char.isDigit then some (digitsToNat ds) else none
      | '-' :: ds =>
        if ds ≠ [] ∧ ds.all Char.isDigit then some (-(digitsToNat ds : Int)) else none
      | ds =>
        if ds ≠ [] ∧ ds.all Char.isDigit then some (digitsToNat ds) else none
    else none

/-- An unsigned `StrUnsignedDecimalLiteral` other than `Infinity`:
`digits [. digits] [exponent]` or `. digits [exponent]`.  Returns the exact
value as `(M, E, len)` with value `M × 10^E`, where `len` bounds the number
of significant digits (used only for an underflow guard). -/
def parseDecimalNat (cs : List Char) : Option (Nat × Int × Nat) :=
  let ip := cs.takeWhile Char.isDigit
  let rest := cs.dropWhile Char.isDigit
  match rest with
  | '.' :: rest2 =>
    let fp := rest2.takeWhile Char.isDigit
    let rest3 := rest2.dropWhile Char.isDigit
    if ip = [] ∧ fp = [] then none
    else
      match parseExponentPart rest3 with
      | some ex => some (digitsToNat (ip ++ fp), ex - fp.length, (ip ++ fp).length)
      | none => none
  | _ =>
    if ip = [] then none
    else
      match parseExponentPart rest with
      | some ex => some (digitsToNat ip, ex, ip.length)
      | none => none

/-- Fuel-driven floor-log2 (structural recursion so that the kernel can
evaluate it; `Nat.log2` itself is defined by well-founded recursion). -/
def log2F : Nat → Nat → Nat
  | 0, _ => 0
  | f + 1, n => if n ≤ 1 then 0 else log2F f (n / 2) + 1

/-- `⌊log₂ n⌋` for `n ≥ 1` (0 at 0). -/
def natLog2 (n : Nat) : Nat := log2F n n

/-- Whether `2^e ≤ a / b` (by cross-multiplication, so signed exponents need
no rational arithmetic). -/
def pow2LE (e : Int) (a b : Nat) : Bool :=
  if 0 ≤ e then 2 ^ e.toNat * b ≤ a else b ≤ 2 ^ (-e).toNat * a

/-- `⌊log₂ (a / b)⌋` for `a, b ≥ 1`: the estimate from the operands' logs is
off by at most one, which one comparison settles. -/
def floorLog2F (a b : Nat) : Int :=
  let e0 : Int := (natLog2 a : Int) - (natLog2 b : Int)
  if pow2LE e0 a b then e0 else e0 - 1

/-- Round `a / b` (`b ≥ 1`) to the nearest integer, ties to even. -/
def rneF (a b : Nat) : Nat :=
  let n := a / b
  let r := a % b
  if 2 * r < b then n
  else if b < 2 * r then n + 1
  else if n % 2 = 0 then n else n + 1

/-- The fraction `(a / b) / 2^j`. -/
def divPow2 (a b : Nat) (j : Int) : Nat × Nat :=
  if 0 ≤ j then (a, b * 2 ^ j.toNat) else (a * 2 ^ (-j).toNat, b)

/-- Classify the IEEE-754 binary64 double nearest to the positive rational
`a / b` (round to nearest, ties to even): `.int n` when that double is the
integer `n`, `.nonInt` when it is fractional or the value overflows to
`Infinity` (at or beyond `2^1024 − 2^970`); the subnormal range (below
`2^-1022`) can only contribute the integer 0. -/
def roundClassPos (a b : Nat) : JsNum :=
  let e := floorLog2F a b
  if 1024 ≤ e then .nonInt
  else if e < -1022 then
    let p := divPow2 a b (-1074)
    if rneF p.1 p.2 = 0 then .int 0 else .nonInt
  else
    let p := divPow2 a b (e - 52)
    let m := rneF p.1 p.2
    if e = 1023 ∧ 2 ^ 53 ≤ m then .nonInt
    else if 52 ≤ e then .int (m * 2 ^ (e - 52).toNat)
    else if m % 2 ^ (52 - e).toNat = 0 then .int (m / 2 ^ (52 - e).toNat)
    else .nonInt

/-- Classify the double nearest to the nonnegative integer `M`: exact below
`2^53`, otherwise rounded (always still an integer, unless it overflows). -/
def classifyIntAbs (M : Nat) : JsNum :=
  if M ≤ 2 ^ 53 then .int M else roundClassPos M 1

/-- Classify the double nearest to `M × 10^E` (`M` read from `len` digit
characters).  The `±400` exponent guards are mathematically conservative —
`M ≥ 1` and `E ≥ 400` puts the value at or above `10^400 > 2^1024`
(`Infinity`), and `M < 10^len` with `E ≤ -400 − len` puts it below
`10^-400 < 2^-1075` (which rounds to 0) — they only keep the exact
arithmetic on the feasible range. -/
def classifyAbs (M : Nat) (E : Int) (len : Nat) : JsNum :=
  if M = 0 then .int 0
  else if 400 ≤ E then .nonInt
  else if E ≤ -400 - (len : Int) then .int 0
  else if 0 ≤ E then classifyIntAbs (M * 10 ^ E.toNat)
  else roundClassPos M (10 ^ (-E).toNat)

/-- Negate an integral classification (`-0` is the integer 0). -/
def applySign (neg : Bool) : JsNum → JsNum
  | .int n => .int (if neg then -n else n)
  | r => r

/-- Model of the JS `Number(string)` coercion (ECMA-262 `ToNumber` on a
string), as the two query resolvers apply it to their id argument: trim the
JS whitespace set (an empty remainder is `+0`); then the remainder must
wholly be a signed decimal literal (optional fraction and exponent), a
signed `Infinity`, or an unsigned `0x`/`0o`/`0b` radix literal — anything
else is `NaN`.  The literal's exact value is rounded to the nearest IEEE-754
binary64 and classified as the integer it denotes, or as a non-integral
(fractional or infinite) number. -/
def jsNumber (s : String) : JsNum :=
  let cs := jsTrim s.toList
  if cs = [] then .int 0
  else
    match cs with
    | '0' :: 'x' :: ds =>
      if ds ≠ [] ∧ ds.all isHexDigitChar then classifyIntAbs (baseVal 16 hexDigitVal ds)
      else .nan
    | '0' :: 'X' :: ds =>
      if ds ≠ [] ∧ ds.all isHexDigitChar then classifyIntAbs (baseVal 16 hexDigitVal ds)
      else .nan
    | '0' :: 'o' :: ds =>
      if ds ≠ [] ∧ ds.all (fun c => '0' ≤ c && c ≤ '7') then
        classifyIntAbs (baseVal 8 (fun c => c.toNat - 48) ds)
      else .nan
    | '0' :: 'O' :: ds =>
      if ds ≠ [] ∧ ds.all (fun c => '0' ≤ c && c ≤ '7') then
        classifyIntAbs (baseVal 8 (fun c => c.toNat - 48) ds)
      else .nan
    | '0' :: 'b' :: ds =>
      if ds ≠ [] ∧ ds.all (fun c => c = '0' ∨ c = '1') then
        classifyIntAbs (baseVal 2 (fun c => c.toNat - 48) ds)
      else .nan
    | '0' :: 'B' :: ds =>
      if ds ≠ [] ∧ ds.all (fun c => c = '0' ∨ c = '1') then
        classifyIntAbs (baseVal 2 (fun c => c.toNat - 48) ds)
      else .nan
    | _ =>
      let signed : Bool × List Char := match cs with
        | '+' :: r => (false, r)
        | '-' :: r => (true, r)
        | r => (false, r)
      if signed.2 = "Infinity".toList then .nonInt
      else
        match parseDecimalNat signed.2 with
        | some (M, E, len) => applySign signed.1 (classifyAbs M E len)
        | none => .nan

/-- The Prisma client's rejection of a query whose `Int`-field filter value
is not an integer (`NaN` or a fractional number): a
`PrismaClientValidationError`, thrown before anything reaches the database
and not a `PrismaClientKnownRequestError`. -/
def prismaInvalidKey : StoreError := .unknown "PrismaClientValidationError"

/-- `prisma.link.findUnique({ where: { id } })` with a JS-number key, as the
query resolvers call it after a `Number(...)` coercion: an integral key is a
valid `Int` filter and yields the row with that id or `null` (an id outside
the table's contents — negative, huge — simply matches no row; engine-side
integer-width limits are ORM internals, out of scope per the spec); a `NaN`
or non-integral key fails the client's validation, so the call rejects. -/
def linkFindUniqueJs (store : Store) (key : JsNum) :
    Except StoreError (Option Link) :=
  match key with
  | .int n => .ok (store.links.find? (fun l => (l.id : Int) == n))
  | .nan => .error prismaInvalidKey
  | .nonInt => .error prismaInvalidKey

/-- `prisma.comment.findUnique({ where: { id } })` with a JS-number key. -/
def commentFindUniqueJs (store : Store) (key : JsNum) :
    Except StoreError (Option Comment) :=
  match key with
  | .int n => .ok (store.comments.find? (fun c => (c.id : Int) == n))
  | .nan => .error prismaInvalidKey
  | .nonInt => .error prismaInvalidKey

/-- The `Query.link` field.  `typeDefs` declares
`link(linkId: ID!): Link`, but the `resolvers` object in `schema.ts` has no
`Query.link` entry, so GraphQL default field resolution (a property read on
the absent root value) yields `null` for every request, whatever the
argument and whatever the store holds. -/
def link (_store : Store) (_linkId : String) : Option Link :=
  none

/-- The `Query.linkComments` resolver: despite its name it runs
`prisma.link.findUnique({ where: { id: Number(linkId) } })` and returns that
Link (or `null`); a `linkId` whose coercion is not an integer makes the
store call itself reject. -/
def linkComments (store : Store) (linkId : String) :
    Except StoreError (Option Link) :=
  linkFindUniqueJs store (jsNumber linkId)

/-- The `Query.comment` resolver:
`prisma.comment.findUnique({ where: { id: Number(commentId) } })`. -/
def comment (store : Store) (commentId : String) :
    Except StoreError (Option Comment) :=
  commentFindUniqueJs store (jsNumber commentId)

/-- Arguments of `postLink` (from `types.ts`). -/
structure PostLinkArgs where
  description : String
  url : String
deriving Repr, DecidableEq

/-- Arguments of `postCommentOnLink` (from `types.ts`). -/
structure PostCommentArgs where
  body : String
  linkId : String
deriving Repr, DecidableEq

/-- Arguments of `updateCommentOnLink` (from `types.ts`). -/
structure UpdateCommentArgs where
  commentId : String
  body : String
deriving Repr, DecidableEq

/-- The `Mutation.postLink` resolver: rejects with a `GraphQLError` when
`description` or `url` is falsy (the empty string, since both are declared
`String!`), otherwise creates and returns the new Link.  The pair's second
component is the store after the call. -/
def postLink (store : Store) (args : PostLinkArgs) :
    Except ResolverError Link × Store :=
  if args.description = "" ∨ args.url = "" then
    (.error (.graphQLError "🚫 All fields are required."), store)
  else
    let (newLink, store') := linkCreate store args.description args.url
    (.ok newLink, store')

/-- The `Mutation.deleteLink` resolver.  `deleteErr` injects the outcome of
the `prisma.link.delete` call that the source wraps in `.catch`: `none`
means the delete succeeds, `some err` means the store rejects with `err`,
which the handler remaps when it is a known `P2003` error and re-throws
unchanged otherwise.  A failed delete leaves the store as it was. -/
def deleteLink (store : Store) (deleteErr : Option StoreError) (id : String) :
    Except ResolverError Link × Store :=
  match parseIntSafe id with
  | none =>
    (.error (.graphQLError s!"Cannot delete non-existing link with id '{id}'."),
      store)
  | some safeID =>
    match linkFindUnique store (some safeID) with
    | none =>
      (.error (.graphQLError s!"Link with ID: '{id}' does not exist."), store)
    | some linkToDelete =>
      match deleteErr with
      | some err =>
        if isKnownP2003 err then
          (.error (.graphQLError
            s!"Cannot delete non-existing link with id '{id}'."), store)
        else
          (.error (.storeError err), store)
      | none => (.ok linkToDelete, linkDeleteRow store safeID)

/-- The `Mutation.postCommentOnLink` resolver: parse `linkId`, check the
Link exists, check `body` is non-empty, create the Comment.  `createErr`
injects the outcome of the guarded `prisma.comment.create` call. -/
def postCommentOnLink (store : Store) (createErr : Option StoreError)
    (args : PostCommentArgs) : Except ResolverError Comment × Store :=
  match parseIntSafe args.linkId with
  | none =>
    (.error (.graphQLError
      s!"Cannot post comment on non-existing link with id '{args.linkId}'."),
      store)
  | some safeID =>
    match linkFindUnique store (some safeID) with
    | none =>
      (.error (.graphQLError
        s!"Link with ID: '{args.linkId}' does not exist."), store)
    | some _ =>
      if args.body = "" then
        (.error (.graphQLError "🚫 Body is a required field"), store)
      else
        match createErr with
        | some err =>
          if isKnownP2003 err then
            (.error (.graphQLError
              s!"Cannot post comment on non-existing link with id '{args.linkId}'."),
              store)
          else
            (.error (.storeError err), store)
        | none =>
          let (newComment, store') := commentCreate store args.body safeID
          (.ok newComment, store')

/-- The `Mutation.deleteCommentOnLink` resolver.  `deleteErr` injects the
outcome of the guarded `prisma.comment.delete` call. -/
def deleteCommentOnLink (store : Store) (deleteErr : Option StoreError)
    (commentId : String) : Except ResolverError Comment × Store :=
  match parseIntSafe commentId with
  | none =>
    (.error (.graphQLError
      s!"Cannot delete non-existing comment with id '{commentId}'."), store)
  | some safeID =>
    match commentFindUnique store (some safeID) with
    | none =>
      (.error (.graphQLError
        s!"Comment with ID: '{commentId}' does not exist."), store)
    | some commentToDelete =>
      match deleteErr with
      | some err =>
        if isKnownP2003 err then
          (.error (.graphQLError
            s!"Cannot delete a non-existing comment with id '{commentId}'."),
            store)
        else
          (.error (.storeError err), store)
      | none => (.ok commentToDelete, commentDeleteRow store safeID)

/-- The `Mutation.updateCommentOnLink` resolver.  Its error strings are
transcribed verbatim from the source: the parse failure reuses the "Cannot
delete non-existing comment" wording, and the `P2003` remap reuses
`postCommentOnLink`'s "Cannot post comment on non-existing link" wording
with the `commentId` interpolated where a link id is expected.  `updateErr`
injects the outcome of the guarded `prisma.comment.update` call. -/
def updateCommentOnLink (store : Store) (updateErr : Option StoreError)
    (args : UpdateCommentArgs) : Except ResolverError Comment × Store :=
  match parseIntSafe args.commentId with
  | none =>
    (.error (.graphQLError
      s!"Cannot delete non-existing comment with id '{args.commentId}'."),
      store)
  | some safeID =>
    match commentFindUnique store (some safeID) with
    | none =>
      (.error (.graphQLError
        s!"Comment with ID: '{args.commentId}' does not exist."), store)
    | some commentToUpdate =>
      match updateErr with
      | some err =>
        if isKnownP2003 err then
          (.error (.graphQLError
            s!"Cannot post comment on non-existing link with id '{args.commentId}'."),
            store)
        else
          (.error (.storeError err), store)
      | none =>
        (.ok { commentToUpdate with body := args.body },
          commentUpdateRow store safeID args.body)

/-- The payload of a verified JWT as the Auth Helper reads it: the `userId`
claim. -/
structure JwtPayload where
  userId : Nat
deriving Repr, DecidableEq

/-- `header.split(' ')[1]` followed by the JS falsiness test `!token`: the
part after the first space, unless it is missing or empty. -/
def tokenOf (header : String) : Option String :=
  match (header.toList.splitOn ' ').get? 1 with
  | none => none
  | some t => if t = [] then none else some (String.mk t)

/-- `authenticateUser` from `auth.ts` (the active variant, which reads
`request.headers.authorization`).  `authorization` is the raw header
(`none` when the request has none: JS `undefined`, which passes the
`header !== null` test but makes `header?.split(' ')[1]` undefined, so the
function returns `null`).  `verify` embeds `jsonwebtoken.verify` with the
app secret: `.error` is a thrown verification failure.  The source wraps
the `verify` call in no try/catch, so that failure propagates out of
`authenticateUser` — hence the `Except` result. -/
def authenticateUser (users : List User)
    (verify : String → Except String JwtPayload)
    (authorization : Option String) : Except String (Option User) :=
  match authorization with
  | none => .ok none
  | some header =>
    match tokenOf header with
    | none => .ok none
    | some token =>
      match verify token with
      | .error e => .error e
      | .ok tokenPayload =>
        .ok (users.find? (fun u => u.id == tokenPayload.userId))

/-! ## Helper lemmas and sample data -/

/-- An infix of `s` is an infix of `s ++ t`. -/
lemma infix_str_left {a : List Char} {s t : String} (h : a <:+: s.toList) :
    a <:+: (s ++ t).toList :=
  h.trans ((List.prefix_append s.toList t.toList).isInfix)

/-- An infix of `t` is an infix of `s ++ t`. -/
lemma infix_str_right {a : List Char} {s t : String} (h : a <:+: t.toList) :
    a <:+: (s ++ t).toList :=
  h.trans ((List.suffix_append s.toList t.toList).isInfix)

/-- A concrete Link row used to instantiate the theorems below. -/
def sampleLink : Link := ⟨1, "test link", "http://x"⟩

/-- A concrete Comment row on `sampleLink`. -/
def sampleComment : Comment := ⟨1, "first", some 1⟩

/-- A concrete store: one Link, one Comment on it. -/
def sampleStore : Store := ⟨[sampleLink], [sampleComment], 2, 2⟩

/-- `jsNumber` agrees with JS `Number(string)` on a battery of
representative inputs: plain and signed integers, whitespace (including
tab) padding, integral and fractional decimal/exponent forms, radix
literals, `Infinity`, malformed strings, double-precision rounding at
`2^53 + 1`, a 19-nines fraction that rounds up to 1, and exponent overflow
and underflow. -/
lemma jsNumber_oracle :
    jsNumber "" = .int 0 ∧ jsNumber " " = .int 0
    ∧ jsNumber "1" = .int 1 ∧ jsNumber "42" = .int 42
    ∧ jsNumber "007" = .int 7 ∧ jsNumber "-5" = .int (-5)
    ∧ jsNumber "+3" = .int 3 ∧ jsNumber "\t1" = .int 1
    ∧ jsNumber "1.0" = .int 1 ∧ jsNumber "1." = .int 1
    ∧ jsNumber "1e0" = .int 1 ∧ jsNumber "1e2" = .int 100
    ∧ jsNumber ".5e1" = .int 5 ∧ jsNumber "1.5" = .nonInt
    ∧ jsNumber ".5" = .nonInt ∧ jsNumber "5e-1" = .nonInt
    ∧ jsNumber "0x1" = .int 1 ∧ jsNumber "0XfF" = .int 255
    ∧ jsNumber "0o17" = .int 15 ∧ jsNumber "0b101" = .int 5
    ∧ jsNumber "0x" = .nan ∧ jsNumber "-0x1" = .nan
    ∧ jsNumber "Infinity" = .nonInt ∧ jsNumber "-Infinity" = .nonInt
    ∧ jsNumber "Infinity5" = .nan ∧ jsNumber "abc" = .nan
    ∧ jsNumber "1a" = .nan ∧ jsNumber "1 2" = .nan
    ∧ jsNumber "1_0" = .nan
    ∧ jsNumber "9007199254740993" = .int 9007199254740992
    ∧ jsNumber "0.9999999999999999999" = .int 1
    ∧ jsNumber "1e21" = .int 1000000000000000000000
    ∧ jsNumber "1e999" = .nonInt ∧ jsNumber "1e-999" = .int 0 := by
  refine ⟨?_, ?_, ?_, ?_, ?_, ?_, ?_, ?_, ?_, ?_, ?_, ?_, ?_, ?_, ?_, ?_, ?_,
    ?_, ?_, ?_, ?_, ?_, ?_, ?_, ?_, ?_, ?_, ?_, ?_, ?_, ?_, ?_, ?_, ?_⟩ <;>
    decide

/-! ## The claims -/

/-- C1: `linkFeed` fails with a validation error when `take` (default 30)
leaves `[1, 50]`, or — with `take` in range — when `skip` (default 0) leaves
`[0, 50]`; the error message names the offending argument, its actual value
and both bounds (as substrings of the message text); with both in range no
error is raised and the exact values are handed to the store's `findMany`. -/
theorem linkFeed_take_skip_validation :
    (∀ (store : Store) (args : LinkFeedArgs),
      ((args.take.getD 30 < 1 ∨ args.take.getD 30 > 50) →
        linkFeed store args =
          .error (.graphQLError (takeRangeMsg 1 50 (args.take.getD 30))))
      ∧ (1 ≤ args.take.getD 30 → args.take.getD 30 ≤ 50 →
        (args.skip.getD 0 < 0 ∨ args.skip.getD 0 > 50) →
        linkFeed store args =
          .error (.graphQLError (skipRangeMsg 0 50 (args.skip.getD 0))))
      ∧ (1 ≤ args.take.getD 30 → args.take.getD 30 ≤ 50 →
        0 ≤ args.skip.getD 0 → args.skip.getD 0 ≤ 50 →
        linkFeed store args =
          .ok (linkFindMany store (linkWhere args.filterNeedle)
            (args.take.getD 30) (args.skip.getD 0))))
    ∧ (∀ mn mx v : Int,
        "take".toList <:+: (takeRangeMsg mn mx v).toList
        ∧ (toString v).toList <:+: (takeRangeMsg mn mx v).toList
        ∧ (toString mn).toList <:+: (takeRangeMsg mn mx v).toList
        ∧ (toString mx).toList <:+: (takeRangeMsg mn mx v).toList)
    ∧ (∀ mn mx v : Int,
        "skip".toList <:+: (skipRangeMsg mn mx v).toList
        ∧ (toString v).toList <:+: (skipRangeMsg mn mx v).toList
        ∧ (toString mn).toList <:+: (skipRangeMsg mn mx v).toList
        ∧ (toString mx).toList <:+: (skipRangeMsg mn mx v).toList) := by
  refine ⟨?_, ?_, ?_⟩
  · intro store args
    refine ⟨?_, ?_, ?_⟩
    · intro h
      simp only [linkFeed, applyTakeConstraints, if_pos h]
      rfl
    · intro h1 h2 h
      have hn : ¬(args.take.getD 30 < 1 ∨ args.take.getD 30 > 50) := by omega
      simp only [linkFeed, applyTakeConstraints, applySkipConstraints,
        if_neg hn, if_pos h]
      rfl
    · intro h1 h2 h3 h4
      have hn : ¬(args.take.getD 30 < 1 ∨ args.take.getD 30 > 50) := by omega
      have hn2 : ¬(args.skip.getD 0 < 0 ∨ args.skip.getD 0 > 50) := by omega
      simp only [linkFeed, applyTakeConstraints, applySkipConstraints,
        if_neg hn, if_neg hn2]
      rfl
  · intro mn mx v
    refine ⟨?_, ?_, ?_, ?_⟩
    · unfold takeRangeMsg
      repeat apply infix_str_left
      decide
    · unfold takeRangeMsg
      apply infix_str_left; apply infix_str_left; apply infix_str_left
      apply infix_str_left; apply infix_str_left
      apply infix_str_right
      exact List.infix_rfl
    · unfold takeRangeMsg
      apply infix_str_left; apply infix_str_left; apply infix_str_left
      apply infix_str_right
      exact List.infix_rfl
    · unfold takeRangeMsg
      apply infix_str_left
      apply infix_str_right
      exact List.infix_rfl
  · intro mn mx v
    refine ⟨?_, ?_, ?_, ?_⟩
    · unfold skipRangeMsg
      repeat apply infix_str_left
      decide
    · unfold skipRangeMsg
      apply infix_str_left; apply infix_str_left; apply infix_str_left
      apply infix_str_left; apply infix_str_left
      apply infix_str_right
      exact List.infix_rfl
    · unfold skipRangeMsg
      apply infix_str_left; apply infix_str_left; apply infix_str_left
      apply infix_str_right
      exact List.infix_rfl
    · unfold skipRangeMsg
      apply infix_str_left
      apply infix_str_right
      exact List.infix_rfl

/-- C1 witness: `linkFeed(take: 999)` (the spec's own example) fails with
the `take` bounds error. -/
theorem linkFeed_take_999_rejected :
    ((999 : Int) < 1 ∨ (999 : Int) > 50)
    ∧ linkFeed sampleStore ⟨none, some 999, none⟩ =
        .error (.graphQLError (takeRangeMsg 1 50 999)) :=
  ⟨by decide,
    (linkFeed_take_skip_validation.1 sampleStore ⟨none, some 999, none⟩).1 (by decide)⟩

/-- C2: the `comment(commentId)` query does fetch by id and returns `null`
when the Comment is absent (at "1" and "42" the `jsNumber` coercion
coincides exactly with JS `Number`); but `link(linkId)` has no resolver in
`schema.ts`, so it resolves to `null` even for a Link that exists — here the
store holds `sampleLink` with id 1, `linkId` "1" names it, and the store
does find it, yet `link` returns `none`. -/
theorem link_query_resolver_missing :
    link sampleStore "1" = none
    ∧ jsNumber "1" = .int 1
    ∧ linkFindUnique sampleStore (some 1) = some sampleLink
    ∧ comment sampleStore "1" = .ok (some sampleComment)
    ∧ comment sampleStore "42" = .ok none :=
  ⟨rfl, by decide, by decide,
    congrArg Except.ok (by decide), congrArg Except.ok (by decide)⟩

/-- C3: a string the `^(\d+)$` regex rejects makes each of the four
id-taking mutations fail with its "does not exist"-style `GraphQLError`,
with the store unchanged (no write). -/
theorem mutations_reject_non_numeric_id (s : String) (h : parseIntSafe s = none) :
    ∀ (store : Store) (derr cerr uerr : Option StoreError) (body : String),
      deleteLink store derr s =
        (.error (.graphQLError s!"Cannot delete non-existing link with id '{s}'."), store)
      ∧ postCommentOnLink store cerr ⟨body, s⟩ =
        (.error (.graphQLError
          s!"Cannot post comment on non-existing link with id '{s}'."), store)
      ∧ deleteCommentOnLink store derr s =
        (.error (.graphQLError
          s!"Cannot delete non-existing comment with id '{s}'."), store)
      ∧ updateCommentOnLink store uerr ⟨s, body⟩ =
        (.error (.graphQLError
          s!"Cannot delete non-existing comment with id '{s}'."), store) := by
  intro store derr cerr uerr body
  refine ⟨?_, ?_, ?_, ?_⟩ <;>
    simp only [deleteLink, postCommentOnLink, deleteCommentOnLink,
      updateCommentOnLink, h]

/-- C3 witness: `deleteLink("abc")` rejects with the not-found-style error
and leaves the store as it was. -/
theorem deleteLink_rejects_abc :
    parseIntSafe "abc" = none
    ∧ deleteLink sampleStore none "abc" =
      (.error (.graphQLError "Cannot delete non-existing link with id 'abc'."),
        sampleStore) :=
  ⟨by decide,
    (mutations_reject_non_numeric_id "abc" (by decide) sampleStore none none none "b").1⟩

/-- C4: `postLink` with an empty description or url fails with the
validation error and creates no row; with both non-empty it appends exactly
one new Link carrying that description and url and returns it. -/
theorem postLink_requires_description_and_url :
    ∀ (store : Store) (args : PostLinkArgs),
      ((args.description = "" ∨ args.url = "") →
        postLink store args =
          (.error (.graphQLError "🚫 All fields are required."), store))
      ∧ (args.description ≠ "" → args.url ≠ "" →
        postLink store args =
          (.ok ⟨store.nextLinkId, args.description, args.url⟩,
            { store with
                links := store.links ++ [⟨store.nextLinkId, args.description, args.url⟩]
                nextLinkId := store.nextLinkId + 1 })) := by
  intro store args
  constructor
  · intro h
    simp only [postLink, if_pos h]
  · intro h1 h2
    simp only [postLink, if_neg (not_or.mpr ⟨h1, h2⟩), linkCreate]

/-- C4 witness: an empty description is rejected without touching the
store, and `postLink(description: "test", url: "http://x")` (the spec's
example) returns the freshly numbered Link. -/
theorem postLink_empty_description_rejected :
    postLink sampleStore ⟨"", "http://x"⟩ =
      (.error (.graphQLError "🚫 All fields are required."), sampleStore)
    ∧ postLink sampleStore ⟨"test", "http://x"⟩ =
      (.ok ⟨2, "test", "http://x"⟩,
        { sampleStore with
            links := sampleStore.links ++ [⟨2, "test", "http://x"⟩]
            nextLinkId := 3 }) :=
  ⟨(postLink_requires_description_and_url sampleStore ⟨"", "http://x"⟩).1 (.inl rfl),
    (postLink_requires_description_and_url sampleStore ⟨"test", "http://x"⟩).2
      (by decide) (by decide)⟩

/-- C5: when `linkId` parses as an integer but no Link with that id exists,
`postCommentOnLink` fails with the "does not exist" error and the store is
unchanged — no Comment row is created. -/
theorem postCommentOnLink_missing_link_rejected (linkId : String) (n : Nat)
    (store : Store) (h1 : parseIntSafe linkId = some n)
    (h2 : linkFindUnique store (some n) = none) :
    ∀ (cerr : Option StoreError) (body : String),
      postCommentOnLink store cerr ⟨body, linkId⟩ =
        (.error (.graphQLError s!"Link with ID: '{linkId}' does not exist."), store) := by
  intro cerr body
  simp only [postCommentOnLink, h1, h2]

/-- C5 witness: posting a comment on the absent Link 5 errors and writes
nothing. -/
theorem postCommentOnLink_missing_link_example :
    postCommentOnLink sampleStore none ⟨"hello", "5"⟩ =
      (.error (.graphQLError "Link with ID: '5' does not exist."), sampleStore) :=
  postCommentOnLink_missing_link_rejected "5" 5 sampleStore (by decide) (by decide)
    none "hello"

/-- C6: once `deleteLink`'s id parses and the Link exists, a store delete
failing with the known `P2003` (foreign-key-constraint) error is remapped to
a domain "Cannot delete ..." `GraphQLError` (a different value than the raw
store error); any other store error is propagated unchanged; and a
successful delete returns the found Link, removing its row. -/
theorem deleteLink_constraint_remap (id : String) (n : Nat) (l : Link)
    (store : Store) (h1 : parseIntSafe id = some n)
    (h2 : linkFindUnique store (some n) = some l) :
    (∀ m : String,
      deleteLink store (some (.known "P2003" m)) id =
        (.error (.graphQLError s!"Cannot delete non-existing link with id '{id}'."),
          store)
      ∧ "Cannot delete".toList <:+:
          (s!"Cannot delete non-existing link with id '{id}'." : String).toList
      ∧ (ResolverError.graphQLError s!"Cannot delete non-existing link with id '{id}'.")
          ≠ .storeError (.known "P2003" m))
    ∧ (∀ err : StoreError, isKnownP2003 err = false →
        deleteLink store (some err) id = (.error (.storeError err), store))
    ∧ deleteLink store none id = (.ok l, linkDeleteRow store n) := by
  refine ⟨?_, ?_, ?_⟩
  · intro m
    refine ⟨?_, ?_, ?_⟩
    · simp only [deleteLink, h1, h2, isKnownP2003]
      rfl
    · repeat apply infix_str_left
      decide
    · intro hcontra
      exact ResolverError.noConfusion hcontra
  · intro err herr
    simp only [deleteLink, h1, h2, herr]
    rfl
  · simp only [deleteLink, h1, h2]

/-- C6 witness: successfully deleting Link 1 returns it. -/
theorem deleteLink_success_example :
    deleteLink sampleStore none "1" = (.ok sampleLink, linkDeleteRow sampleStore 1) :=
  (deleteLink_constraint_remap "1" 1 sampleLink sampleStore (by decide) (by decide)).2.2

/-- C7: with Comment 1 present and the store reporting a `P2003`
foreign-key violation, `updateCommentOnLink` remaps it to "Cannot post
comment on non-existing link with id '1'." — the message of the
`postCommentOnLink` remap, about a Link, not about the Comment update —
whereas `deleteCommentOnLink` does use a comment-specific message, so the
update remap is not distinct per entity kind. -/
theorem updateComment_p2003_message_is_link_message :
    updateCommentOnLink sampleStore (some (.known "P2003" "FK constraint"))
        ⟨"1", "new body"⟩ =
      (.error (.graphQLError "Cannot post comment on non-existing link with id '1'."),
        sampleStore)
    ∧ deleteCommentOnLink sampleStore (some (.known "P2003" "FK constraint")) "1" =
      (.error (.graphQLError "Cannot delete a non-existing comment with id '1'."),
        sampleStore)
    ∧ postCommentOnLink sampleStore (some (.known "P2003" "FK constraint")) ⟨"b", "1"⟩ =
      (.error (.graphQLError "Cannot post comment on non-existing link with id '1'."),
        sampleStore) :=
  ⟨rfl, rfl, rfl⟩

/-- C8 counterexample: a present bearer token whose signature verification
fails makes `authenticateUser` propagate the verification error — the
result is not the null-user `.ok none` the claim promises. -/
theorem authenticateUser_verify_failure_propagates :
    authenticateUser [] (fun _ => .error "invalid signature") (some "Bearer deadbeef") =
      .error "invalid signature"
    ∧ authenticateUser [] (fun _ => .error "invalid signature") (some "Bearer deadbeef") ≠
      .ok none := by
  refine ⟨rfl, ?_⟩
  intro h
  rw [show authenticateUser [] (fun _ => .error "invalid signature")
      (some "Bearer deadbeef") = .error "invalid signature" from rfl] at h
  exact Except.noConfusion h

/-- C8 amended: a missing Authorization header, or one without a non-empty
token after the first space, yields a null user with no error; but when
verification of the extracted token fails, the failure escapes
`authenticateUser` unhandled. -/
theorem authenticateUser_null_cases :
    ∀ (users : List User) (verify : String → Except String JwtPayload),
      authenticateUser users verify none = .ok none
      ∧ (∀ h : String, tokenOf h = none →
          authenticateUser users verify (some h) = .ok none)
      ∧ (∀ (h t e : String), tokenOf h = some t → verify t = .error e →
          authenticateUser users verify (some h) = .error e) := by
  intro users verify
  refine ⟨rfl, ?_, ?_⟩
  · intro h hh
    simp only [authenticateUser, hh]
  · intro h t e hh hv
    simp only [authenticateUser, hh, hv]

/-- C8 witness: a malformed header with no token part resolves to the null
user. -/
theorem authenticateUser_missing_token_null :
    authenticateUser [] (fun _ => Except.error "bad") (some "Bearer") = .ok none :=
  (authenticateUser_null_cases [] (fun _ => Except.error "bad")).2.1 "Bearer" (by decide)

/-- C9: `linkComments` resolves to the store's Link lookup itself, keyed by
the JS-coerced argument: whenever the argument coerces to an integer `n`,
the result is exactly the store's Link row with id `n` (the Link entity,
not a list of comments), and `null` when no Link has that id; an argument
coercing to `NaN` or a non-integer makes the store call itself reject with
its validation error. -/
theorem linkComments_returns_link_entity :
    ∀ (store : Store) (linkId : String),
      linkComments store linkId = linkFindUniqueJs store (jsNumber linkId)
      ∧ (∀ n : Int, jsNumber linkId = .int n →
          linkComments store linkId =
            .ok (store.links.find? (fun l => (l.id : Int) == n))
          ∧ (∀ l : Link, linkComments store linkId = .ok (some l) →
              l ∈ store.links ∧ (l.id : Int) = n)
          ∧ ((∀ l ∈ store.links, (l.id : Int) ≠ n) →
              linkComments store linkId = .ok none))
      ∧ ((jsNumber linkId = .nan ∨ jsNumber linkId = .nonInt) →
          linkComments store linkId = .error prismaInvalidKey) := by
  intro store linkId
  refine ⟨rfl, ?_, ?_⟩
  · intro n hn
    have h1 : linkComments store linkId =
        .ok (store.links.find? (fun l => (l.id : Int) == n)) := by
      unfold linkComments
      rw [hn]
      rfl
    refine ⟨h1, ?_, ?_⟩
    · intro l hl
      have hfind : store.links.find? (fun l => (l.id : Int) == n) = some l := by
        have h2 := h1.symm.trans hl
        simpa using h2
      refine ⟨List.mem_of_find?_eq_some hfind, ?_⟩
      have hp := List.find?_some hfind
      simpa using hp
    · intro habs
      rw [h1]
      have hnone : store.links.find? (fun l => (l.id : Int) == n) = none :=
        List.find?_eq_none.mpr (fun l hm => by simpa using habs l hm)
      rw [hnone]
  · intro hcase
    unfold linkComments linkFindUniqueJs
    rcases hcase with h | h <;> rw [h]

/-- C9 witness: "1.0" JS-coerces to the integer 1, so `linkComments("1.0")`
returns the Link entity with id 1 itself; "42" names no row of the sample
store, so the result is `null`. -/
theorem linkComments_absent_link_null :
    jsNumber "1.0" = .int 1
    ∧ linkComments sampleStore "1.0" = .ok (some sampleLink)
    ∧ linkComments sampleStore "42" = .ok none :=
  ⟨by decide,
    ((linkComments_returns_link_entity sampleStore "1.0").2.1 1 (by decide)).1.trans
      (congrArg Except.ok (by decide)),
    ((linkComments_returns_link_entity sampleStore "42").2.1 42 (by decide)).2.2
      (by decide)⟩

/-- C10: `parseIntSafe` succeeds exactly on nonempty all-decimal-digit
strings; a sign, a space or a decimal point makes it return `null` and
makes the id-taking mutations reject with their "does not exist"-style
errors (store untouched), while leading zeros parse to the base-10 value. -/
theorem parseIntSafe_digits_only :
    (∀ s : String, (parseIntSafe s).isSome ↔
      (s.toList ≠ [] ∧ s.toList.all Char.isDigit = true))
    ∧ parseIntSafe "-1" = none
    ∧ parseIntSafe " 1" = none
    ∧ parseIntSafe "1.0" = none
    ∧ parseIntSafe "007" = some 7
    ∧ (∀ (store : Store) (derr : Option StoreError),
        deleteLink store derr "-1" =
          (.error (.graphQLError "Cannot delete non-existing link with id '-1'."),
            store))
    ∧ (∀ (store : Store) (cerr : Option StoreError) (body : String),
        postCommentOnLink store cerr ⟨body, " 1"⟩ =
          (.error (.graphQLError
            "Cannot post comment on non-existing link with id ' 1'."), store))
    ∧ (∀ (store : Store) (derr : Option StoreError),
        deleteCommentOnLink store derr "1.0" =
          (.error (.graphQLError
            "Cannot delete non-existing comment with id '1.0'."), store))
    ∧ (∀ (store : Store) (uerr : Option StoreError) (body : String),
        updateCommentOnLink store uerr ⟨"+2", body⟩ =
          (.error (.graphQLError
            "Cannot delete non-existing comment with id '+2'."), store)) := by
  refine ⟨?_, by decide, by decide, by decide, by decide, ?_, ?_, ?_, ?_⟩
  · intro s
    unfold parseIntSafe
    split
    · simp_all
    · simp_all
  · intro store derr
    simp only [deleteLink, show parseIntSafe "-1" = none from by decide]
    rfl
  · intro store cerr body
    simp only [postCommentOnLink, show parseIntSafe " 1" = none from by decide]
    rfl
  · intro store derr
    simp only [deleteCommentOnLink, show parseIntSafe "1.0" = none from by decide]
    rfl
  · intro store uerr body
    simp only [updateCommentOnLink, show parseIntSafe "+2" = none from by decide]
    rfl

end GraphqlYoga
